import Mathlib

/-!
A shallow embedding of `cli_calculator.py`: a sandboxed arithmetic
expression evaluator built on Python's `ast` module.  The program parses a
single input line (assignment or expression), walks the tree with an
`ast.NodeVisitor` subclass (`SafeEvaluator`), and evaluates it against a
mutable variable environment, consulting closed registries of operators
(`BIN_OPS`, `UNARY_OPS`), functions (`FUNCS`) and constants (`CONSTS`).

Modelling conventions:
* Python numbers are idealised: `int` is `ℤ`, `float` is `ℚ` (exact
  rational arithmetic in place of IEEE doubles).  The transcendental
  primitives (`math.sqrt`, `math.sin`, ..., `math.log`, fractional
  powers) and the float constants `math.pi`, `math.e` are abstract
  parameters, collected in a `Prims` structure; every evaluator
  definition is parametric in them.
* Python exceptions are the error type `PyErr`; the REPL catches exactly
  `ZeroDivisionError`, `NameError` and `ValueError` (`replCatches`), so a
  `TypeError` escaping `eval_line` is an uncaught fault.
* `ast.NodeVisitor.visit` dispatches on the node class; for classes with
  no `visit_...` method it falls back to `generic_visit`, which visits
  every child node in field order and returns `None`.  The node kinds a
  single input line can produce are embedded explicitly, including the
  kinds the evaluator only reaches through `generic_visit` (`Set`,
  `NamedExpr`, `Starred`, `AugAssign`, `If`).
* `ast.parse` itself is Python-library code outside the repository, so it
  is not embedded: `eval_line` is modelled as a function of the input
  string together with the (exec-mode and eval-mode) parse results of the
  stripped line, supplied as a `ParsedLine`.  Concrete theorems supply
  the concrete tree the Python grammar assigns to the concrete line.
* Error message strings coming from the repository's own `raise`
  statements are kept verbatim; messages of exceptions raised inside the
  Python runtime (`TypeError`s from argument binding, math domain
  errors) are abridged, since only their class matters to the program.
* Keyword arguments are modelled as a list of `String × Expr` pairs,
  mirroring `ast.Call.keywords`; `**`-unpacking (`kw.arg is None`) is
  not modelled (no claim concerns it, and the duplicate-free simple
  keyword form is the only one the claims exercise).
-/

deriving instance DecidableEq for Except

namespace CliCalc

/-- Python exception classes that `eval_line` and the evaluator can raise.
`valueError` covers the evaluator's own rejections and `math` domain
errors; `nameError` is raised by `visit_Name`; `zeroDivisionError` by the
division guard; `typeError` arises from the Python runtime (argument
binding mismatches, non-numeric operands). -/
inductive PyErr where
  | valueError (msg : String)
  | nameError (msg : String)
  | zeroDivisionError (msg : String)
  | typeError (msg : String)
deriving DecidableEq

/-- The `repl` loop catches `ZeroDivisionError`, `NameError` and
`ValueError` (printing a message and resuming); any other exception class
propagates out of the loop and kills the process. -/
def replCatches : PyErr → Bool
  | .valueError _ => true
  | .nameError _ => true
  | .zeroDivisionError _ => true
  | .typeError _ => false

/-- Names of the nine registered functions, the keys of `FUNCS`. -/
inductive FName where
  | sqrt | sin | cos | tan | log | ln | exp | abs | round
deriving DecidableEq

/-- Runtime values flowing through the evaluator: Python `int`, `bool`,
`float`, one of the registered function objects (the values of `FUNCS`,
reachable through `visit_Name`), or `None` (the result of
`generic_visit`). -/
inductive Value where
  | intV (n : ℤ)
  | boolV (b : Bool)
  | floatV (q : ℚ)
  | funcV (f : FName)
  | noneV
deriving DecidableEq

/-- A literal as stored in an `ast.Constant` node. -/
inductive ConstVal where
  | intC (n : ℤ)
  | floatC (q : ℚ)
  | boolC (b : Bool)
  | strC (s : String)
  | noneC
deriving DecidableEq

/-- Binary operator node kinds (`ast.operator` subclasses). -/
inductive BinK where
  | add | sub | mult | div | floorDiv | mod | pow
  | lshift | rshift | bitOr | bitXor | bitAnd | matMult
deriving DecidableEq

/-- Unary operator node kinds (`ast.unaryop` subclasses). -/
inductive UnK where
  | uadd | usub | notK | invert
deriving DecidableEq

/-- Comparison operator node kinds (children of `ast.Compare`; the node
itself is rejected before they are inspected). -/
inductive CmpK where
  | lt | le | gt | ge | eq | ne | isK | isNotK | inK | notInK
deriving DecidableEq

/-- Boolean operator kinds (`and` / `or`, children of `ast.BoolOp`). -/
inductive BoolK where
  | andK | orK
deriving DecidableEq

/-- Expression nodes a single parsed line can contain.  The first five
kinds are the supported surface (`Constant`, `Name`, `BinOp`, `UnaryOp`,
`Call`); the next nine have explicit rejecting `visit_` methods; the last
three (`Set`, `NamedExpr`, `Starred`) have no handler and fall through to
`generic_visit`. -/
inductive Expr where
  | constant (c : ConstVal)
  | name (id : String)
  | binOp (op : BinK) (left right : Expr)
  | unaryOp (op : UnK) (operand : Expr)
  | call (func : Expr) (args : List Expr) (keywords : List (String × Expr))
  | compare (left : Expr) (rest : List (CmpK × Expr))
  | boolOp (op : BoolK) (values : List Expr)
  | ifExp (test body orelse : Expr)
  | lambdaE (body : Expr)
  | attributeE (value : Expr) (attr : String)
  | subscript (value index : Expr)
  | listE (elts : List Expr)
  | tupleE (elts : List Expr)
  | dictE (entries : List (Expr × Expr))
  | setE (elts : List Expr)
  | namedExpr (target : String) (value : Expr)
  | starred (value : Expr)

/-- Statement nodes a single exec-mode line can contain.  `Assign` and
`Expr` statements have handlers (`visit_Assign`, `visit_Expr`);
`AugAssign` and `If` have none and fall through to `generic_visit`
(an `If` statement fits on one line as `if t: s1; s2`). -/
inductive Stmt where
  | assign (targets : List Expr) (value : Expr)
  | augAssign (target : String) (op : BinK) (value : Expr)
  | exprStmt (value : Expr)
  | ifStmt (test : Expr) (body : List Stmt) (orelse : List Stmt)

/-- The variable environment: Python's `env` dict, name to value, with
dict update semantics (`envSet`). -/
def Env : Type := List (String × Value)

instance : DecidableEq Env := by
  unfold Env
  infer_instance

/-- Abstract numeric primitives: the `math`-library functions used by the
registry and the float constants, idealised as exact functions on `ℚ`.
`fpow` stands for `x ** y` with non-integral exponent.  (For a negative
base and non-integral exponent CPython produces a `complex` result; that
value is outside the numeric model and is idealised as `fpow` as well.) -/
structure Prims where
  sqrt : ℚ → ℚ
  sin : ℚ → ℚ
  cos : ℚ → ℚ
  tan : ℚ → ℚ
  exp : ℚ → ℚ
  log : ℚ → ℚ
  fpow : ℚ → ℚ → ℚ
  piV : ℚ
  eV : ℚ

/-- An arbitrary instantiation of the abstract primitives, used to state
closed evaluations (whose control flow never depends on the primitive
values, or depends exactly as shown). -/
def zeroPrims : Prims :=
  ⟨fun _ => 0, fun _ => 0, fun _ => 0, fun _ => 0, fun _ => 0, fun _ => 0,
   fun _ _ => 0, 0, 0⟩

/-- Numeric view of a value: Python converts `bool` to `int` in
arithmetic; `int` and `float` are numbers; everything else is not. -/
def Value.asNum : Value → Option ℚ
  | .intV n => some (n : ℚ)
  | .boolV b => some (if b then 1 else 0)
  | .floatV q => some q
  | _ => none

/-- Whether the value is of Python integer type (`int` or `bool`). -/
def Value.isIntish : Value → Bool
  | .intV _ => true
  | .boolV _ => true
  | _ => false

/-- Whether the value is a Python `float`. -/
def Value.isFloat : Value → Bool
  | .floatV _ => true
  | _ => false

/-- The guard `right == 0` of `visit_BinOp`: Python `==` compares
numerically across `int` / `bool` / `float` and is `False` between a
number and any non-numeric value. -/
def pyEqZero (v : Value) : Bool :=
  match v.asNum with
  | some q => q = 0
  | none => false

/-- Package a numeric result: operations on two Python integers produce
an `int`, otherwise a `float` (`q` is integral whenever `ii` is true). -/
def mkNum (ii : Bool) (q : ℚ) : Value :=
  if ii then .intV ⌊q⌋ else .floatV q

/-- Membership of the operator kind in `BIN_OPS` (the seven allowed
binary operators). -/
def binAllowed : BinK → Bool
  | .add | .sub | .mult | .div | .floorDiv | .mod | .pow => true
  | _ => false

/-- The three operator kinds covered by the division-by-zero guard. -/
def isDivLike : BinK → Bool
  | .div | .floorDiv | .mod => true
  | _ => false

/-- Membership in `UNARY_OPS` (identity and negation). -/
def unAllowed : UnK → Bool
  | .uadd | .usub => true
  | _ => false

/-- The `__name__` of the operator class, used in the rejection message. -/
def binOpName : BinK → String
  | .add => "Add"
  | .sub => "Sub"
  | .mult => "Mult"
  | .div => "Div"
  | .floorDiv => "FloorDiv"
  | .mod => "Mod"
  | .pow => "Pow"
  | .lshift => "LShift"
  | .rshift => "RShift"
  | .bitOr => "BitOr"
  | .bitXor => "BitXor"
  | .bitAnd => "BitAnd"
  | .matMult => "MatMult"

/-- The `__name__` of the unary operator class. -/
def unOpName : UnK → String
  | .uadd => "UAdd"
  | .usub => "USub"
  | .notK => "Not"
  | .invert => "Invert"

/-- Application of `BIN_OPS[op]` to two already-computed operand values
(the operator is already known to be allowed and the zero guard has
already passed).  Non-numeric operands make the `operator` primitive
raise `TypeError`.  Integer semantics follow Python: floor division and
modulo use floor rounding; `int ** negative int` produces a float, and
`0 ** negative` raises `ZeroDivisionError`. -/
def applyBin (P : Prims) (op : BinK) (a b : Value) : Except PyErr Value :=
  match a.asNum, b.asNum with
  | some x, some y =>
    let ii := a.isIntish && b.isIntish
    match op with
    | .add => .ok (mkNum ii (x + y))
    | .sub => .ok (mkNum ii (x - y))
    | .mult => .ok (mkNum ii (x * y))
    | .div => .ok (.floatV (x / y))
    | .floorDiv => .ok (mkNum ii ((⌊x / y⌋ : ℤ) : ℚ))
    | .mod => .ok (mkNum ii (x - y * ((⌊x / y⌋ : ℤ) : ℚ)))
    | .pow =>
      if y.den = 1 then
        if y.num < 0 ∧ x = 0 then
          .error (.zeroDivisionError "0.0 cannot be raised to a negative power")
        else .ok (mkNum (ii && 0 ≤ y.num) (x ^ y.num))
      else .ok (.floatV (P.fpow x y))
    | _ => .error (.typeError "unsupported operand type")
  | _, _ => .error (.typeError "unsupported operand type")

/-- Application of `UNARY_OPS[op]` (`operator.pos` / `operator.neg`);
both convert `bool` to `int` and reject non-numeric operands with
`TypeError`. -/
def applyUn (op : UnK) (v : Value) : Except PyErr Value :=
  match v.asNum with
  | some q =>
    match op with
    | .uadd => .ok (mkNum v.isIntish q)
    | .usub => .ok (mkNum v.isIntish (-q))
    | _ => .error (.typeError "unsupported operand type")
  | none => .error (.typeError "unsupported operand type")

/-- Python's round-half-to-even on an exact rational. -/
def roundHalfEven (q : ℚ) : ℤ :=
  let f := ⌊q⌋
  let r := q - (f : ℚ)
  if r < 1 / 2 then f
  else if 1 / 2 < r then f + 1
  else if f % 2 = 0 then f else f + 1

/-- First match for a keyword name in the evaluated keyword list. -/
def kwLookup (kws : List (String × Value)) (k : String) : Option Value :=
  (kws.find? (fun p => p.1 == k)).map (·.2)

/-- Calling convention of the positional-only one-argument C functions
(`math.sqrt`, `math.sin`, ..., `abs`): no keywords, exactly one
positional argument, which must be a real number. -/
def apply1 (fname : String) (f : ℚ → Except PyErr Value)
    (args : List Value) (kws : List (String × Value)) : Except PyErr Value :=
  if kws.isEmpty then
    match args with
    | [v] =>
      match v.asNum with
      | some q => f q
      | none => .error (.typeError "must be real number")
    | _ => .error (.typeError (fname ++ "() takes exactly one argument"))
  else .error (.typeError (fname ++ "() takes no keyword arguments"))

/-- The body `math.log(x, base)`: domain check, then `log x / log base`
(CPython raises `ZeroDivisionError` when the base is `1`). -/
def logWithBase (P : Prims) (x b : ℚ) : Except PyErr Value :=
  if x ≤ 0 ∨ b ≤ 0 then .error (.valueError "math domain error")
  else if b = 1 then .error (.zeroDivisionError "float division by zero")
  else .ok (.floatV (P.log x / P.log b))

/-- Argument binding of the registry entry
`"log": lambda x, base=10: math.log(x, base)`: parameters `x` and `base`,
`base` defaulting to the `int` `10`, both bindable positionally or by
keyword; mismatches raise `TypeError`. -/
def bindLog (args : List Value) (kws : List (String × Value)) :
    Except PyErr (Value × Value) :=
  if kws.all (fun p => p.1 == "x" || p.1 == "base") then
    match args with
    | [] =>
      match kwLookup kws "x" with
      | some xv => .ok (xv, (kwLookup kws "base").getD (.intV 10))
      | none => .error (.typeError "missing a required argument")
    | [xv] =>
      if (kwLookup kws "x").isSome then
        .error (.typeError "got multiple values for argument")
      else .ok (xv, (kwLookup kws "base").getD (.intV 10))
    | [xv, bv] =>
      if (kwLookup kws "x").isSome || (kwLookup kws "base").isSome then
        .error (.typeError "got multiple values for argument")
      else .ok (xv, bv)
    | _ => .error (.typeError "takes from 1 to 2 positional arguments")
  else .error (.typeError "got an unexpected keyword argument")

/-- The `log` registry entry: bind `(x, base)`, then run `math.log`. -/
def applyLogKw (P : Prims) (args : List Value)
    (kws : List (String × Value)) : Except PyErr Value :=
  match bindLog args kws with
  | .error e => .error e
  | .ok (xv, bv) =>
    match xv.asNum, bv.asNum with
    | some x, some b => logWithBase P x b
    | _, _ => .error (.typeError "must be real number")

/-- The `ln` registry entry is `math.log` itself: one or two positional
arguments (value and optional base), no keywords. -/
def applyLn (P : Prims) (args : List Value)
    (kws : List (String × Value)) : Except PyErr Value :=
  if kws.isEmpty then
    match args with
    | [v] =>
      match v.asNum with
      | some x =>
        if x ≤ 0 then .error (.valueError "math domain error")
        else .ok (.floatV (P.log x))
      | none => .error (.typeError "must be real number")
    | [v, b] =>
      match v.asNum, b.asNum with
      | some x, some bb => logWithBase P x bb
      | _, _ => .error (.typeError "must be real number")
    | _ => .error (.typeError "log() takes at most 2 arguments")
  else .error (.typeError "log() takes no keyword arguments")

/-- The builtin `abs`: one positional argument, preserves the Python
integer/float type of its argument. -/
def applyAbs (args : List Value) (kws : List (String × Value)) :
    Except PyErr Value :=
  if kws.isEmpty then
    match args with
    | [.intV n] => .ok (.intV (if n < 0 then -n else n))
    | [.boolV b] => .ok (.intV (if b then 1 else 0))
    | [.floatV q] => .ok (.floatV (if q < 0 then -q else q))
    | [_] => .error (.typeError "bad operand type for abs()")
    | _ => .error (.typeError "abs() takes exactly one argument")
  else .error (.typeError "abs() takes no keyword arguments")

/-- Rounding with an explicit digit count `d`, preserving float-ness of
the original value. -/
def roundDigits (orig : Value) (q : ℚ) (d : ℤ) : Value :=
  let r : ℚ := ((roundHalfEven (q * (10 : ℚ) ^ d) : ℤ) : ℚ) / (10 : ℚ) ^ d
  if orig.isFloat then .floatV r else .intV ⌊r⌋

/-- Argument binding of the builtin `round(number, ndigits=None)`. -/
def bindRound (args : List Value) (kws : List (String × Value)) :
    Except PyErr (Value × Value) :=
  if kws.all (fun p => p.1 == "number" || p.1 == "ndigits") then
    match args with
    | [] =>
      match kwLookup kws "number" with
      | some nv => .ok (nv, (kwLookup kws "ndigits").getD .noneV)
      | none => .error (.typeError "missing a required argument")
    | [nv] =>
      if (kwLookup kws "number").isSome then
        .error (.typeError "got multiple values for argument")
      else .ok (nv, (kwLookup kws "ndigits").getD .noneV)
    | [nv, dv] =>
      if (kwLookup kws "number").isSome || (kwLookup kws "ndigits").isSome then
        .error (.typeError "got multiple values for argument")
      else .ok (nv, dv)
    | _ => .error (.typeError "round() takes at most 2 arguments")
  else .error (.typeError "got an unexpected keyword argument")

/-- The builtin `round`: `None` digits (or omitted) rounds half-to-even
to an `int`; an integral digit count scales; a float digit count raises
`TypeError`. -/
def applyRound (args : List Value) (kws : List (String × Value)) :
    Except PyErr Value :=
  match bindRound args kws with
  | .error e => .error e
  | .ok (nv, dv) =>
    match nv.asNum with
    | none => .error (.typeError "type cannot be rounded")
    | some q =>
      match dv with
      | .noneV => .ok (.intV (roundHalfEven q))
      | .intV d => .ok (roundDigits nv q d)
      | .boolV b => .ok (roundDigits nv q (if b then 1 else 0))
      | _ => .error (.typeError "cannot be interpreted as an integer")

/-- Invocation `func(*args, **kwargs)` of `visit_Call`, dispatched over
the nine registered function objects of `FUNCS`. -/
def applyFunc (P : Prims) (fn : FName) (args : List Value)
    (kws : List (String × Value)) : Except PyErr Value :=
  match fn with
  | .sqrt =>
    apply1 "sqrt"
      (fun q =>
        if q < 0 then .error (.valueError "math domain error")
        else .ok (.floatV (P.sqrt q))) args kws
  | .sin => apply1 "sin" (fun q => .ok (.floatV (P.sin q))) args kws
  | .cos => apply1 "cos" (fun q => .ok (.floatV (P.cos q))) args kws
  | .tan => apply1 "tan" (fun q => .ok (.floatV (P.tan q))) args kws
  | .exp => apply1 "exp" (fun q => .ok (.floatV (P.exp q))) args kws
  | .log => applyLogKw P args kws
  | .ln => applyLn P args kws
  | .abs => applyAbs args kws
  | .round => applyRound args kws

/-- Lookup in the environment dict (`node.id in self.env`). -/
def envGet (env : Env) (id : String) : Option Value :=
  (List.find? (fun p => p.1 == id) env).map (·.2)

/-- Dict assignment `env[name] = value`: overwrite an existing key in
place, otherwise append. -/
def envSet (env : Env) (id : String) (v : Value) : Env :=
  match env with
  | [] => [(id, v)]
  | (k, w) :: rest =>
    if k == id then (k, v) :: rest else (k, w) :: envSet rest id v

/-- The `CONSTS` registry (`pi` and `e`, both Python floats). -/
def constsGet (P : Prims) (id : String) : Option Value :=
  if id == "pi" then some (.floatV P.piV)
  else if id == "e" then some (.floatV P.eV)
  else none

/-- The `FUNCS` registry viewed as a name table. -/
def funcOfName (id : String) : Option FName :=
  if id == "sqrt" then some .sqrt
  else if id == "sin" then some .sin
  else if id == "cos" then some .cos
  else if id == "tan" then some .tan
  else if id == "log" then some .log
  else if id == "ln" then some .ln
  else if id == "exp" then some .exp
  else if id == "abs" then some .abs
  else if id == "round" then some .round
  else none

/-- `visit_Name`: environment first, then `CONSTS`, then `FUNCS`; an
unresolved name raises `NameError(f"Unknown name: {node.id}")`. -/
def lookupName (P : Prims) (env : Env) (id : String) : Except PyErr Value :=
  match envGet env id with
  | some v => .ok v
  | none =>
    match constsGet P id with
    | some v => .ok v
    | none =>
      match funcOfName id with
      | some f => .ok (.funcV f)
      | none => .error (.nameError ("Unknown name: " ++ id))

/-- `visit_Constant`: `isinstance(node.value, (int, float))` accepts
`int`, `float` and `bool` (a subclass of `int`); every other literal is
rejected. -/
def evalConst : ConstVal → Except PyErr Value
  | .intC n => .ok (.intV n)
  | .floatC q => .ok (.floatV q)
  | .boolC b => .ok (.boolV b)
  | _ => .error (.valueError "Only numeric literals are allowed")

mutual

/-- The expression dispatch of `SafeEvaluator.visit`.  Supported kinds
follow their `visit_` methods; the nine kinds with rejecting methods
raise immediately; `Set`, `NamedExpr` and `Starred` have no method and
take the `generic_visit` path: every child is visited (so child errors
propagate) and the result is `None`.  Expression evaluation never writes
to the environment: the only store in the program is in `visit_Assign`,
a statement handler. -/
def evalExpr (P : Prims) (env : Env) : Expr → Except PyErr Value
  | .constant c => evalConst c
  | .name id => lookupName P env id
  | .binOp op l r =>
    match evalExpr P env l with
    | .error e => .error e
    | .ok lv =>
      match evalExpr P env r with
      | .error e => .error e
      | .ok rv =>
        if binAllowed op then
          if isDivLike op && pyEqZero rv then
            .error (.zeroDivisionError "Division by zero")
          else applyBin P op lv rv
        else .error (.valueError ("Operator not allowed: " ++ binOpName op))
  | .unaryOp op x =>
    match evalExpr P env x with
    | .error e => .error e
    | .ok v =>
      if unAllowed op then applyUn op v
      else .error (.valueError ("Unary operator not allowed: " ++ unOpName op))
  | .call f args kws =>
    match evalExpr P env f with
    | .error e => .error e
    | .ok fv =>
      match fv with
      | .funcV fn =>
        match evalArgs P env args with
        | .error e => .error e
        | .ok avs =>
          match evalKwargs P env kws with
          | .error e => .error e
          | .ok kvs => applyFunc P fn avs kvs
      | _ => .error (.valueError "Only approved functions are allowed")
  | .compare _ _ => .error (.valueError "Comparisons are not allowed")
  | .boolOp _ _ => .error (.valueError "Boolean operators are not allowed")
  | .ifExp _ _ _ => .error (.valueError "Conditional expressions are not allowed")
  | .lambdaE _ => .error (.valueError "Lambdas are not allowed")
  | .attributeE _ _ => .error (.valueError "Attributes are not allowed")
  | .subscript _ _ => .error (.valueError "Indexing/slicing is not allowed")
  | .listE _ => .error (.valueError "Lists are not allowed")
  | .tupleE _ => .error (.valueError "Tuples are not allowed")
  | .dictE _ => .error (.valueError "Dicts are not allowed")
  | .setE elts =>
    match evalArgs P env elts with
    | .error e => .error e
    | .ok _ => .ok .noneV
  | .namedExpr target value =>
    match lookupName P env target with
    | .error e => .error e
    | .ok _ =>
      match evalExpr P env value with
      | .error e => .error e
      | .ok _ => .ok .noneV
  | .starred value =>
    match evalExpr P env value with
    | .error e => .error e
    | .ok _ => .ok .noneV

/-- Left-to-right evaluation of the positional argument expressions of
`visit_Call` (also reused for the children of a `generic_visit`-ed
`Set`, whose values are discarded). -/
def evalArgs (P : Prims) (env : Env) : List Expr → Except PyErr (List Value)
  | [] => .ok []
  | a :: rest =>
    match evalExpr P env a with
    | .error e => .error e
    | .ok v =>
      match evalArgs P env rest with
      | .error e => .error e
      | .ok vs => .ok (v :: vs)

/-- Evaluation of the keyword argument expressions of `visit_Call`, in
source order. -/
def evalKwargs (P : Prims) (env : Env) :
    List (String × Expr) → Except PyErr (List (String × Value))
  | [] => .ok []
  | (k, a) :: rest =>
    match evalExpr P env a with
    | .error e => .error e
    | .ok v =>
      match evalKwargs P env rest with
      | .error e => .error e
      | .ok vs => .ok ((k, v) :: vs)

end

/-- An evaluation outcome as returned by `eval_line`: a bare value for an
expression, or the `(name, value)` pair returned by `visit_Assign`. -/
inductive Outcome where
  | bare (v : Value)
  | assigned (id : String) (v : Value)
deriving DecidableEq

mutual

/-- Statement dispatch.  `visit_Assign` checks the target shape, then
evaluates the right-hand side, then stores; `visit_Expr` unwraps;
`AugAssign` and `If` have no handler and take `generic_visit`: children
are visited in field order (for `If`: test, body list, orelse list —
unconditionally, since `generic_visit` walks the tree rather than
executing the conditional) and the result is `None`.  The environment is
threaded because a nested `Assign` reached through `generic_visit` does
store into it. -/
def evalStmt (P : Prims) (s : Stmt) (env : Env) :
    (Except PyErr Outcome) × Env :=
  match s with
  | .assign targets value =>
    match targets with
    | [.name id] =>
      (match evalExpr P env value with
       | .error e => (.error e, env)
       | .ok v => (.ok (.assigned id v), envSet env id v))
    | [_] => (.error (.valueError "Left side must be a variable name"), env)
    | _ => (.error (.valueError "Only simple assignments supported (e.g., x = 3)"), env)
  | .augAssign target _ value =>
    (match lookupName P env target with
     | .error e => (.error e, env)
     | .ok _ =>
       match evalExpr P env value with
       | .error e => (.error e, env)
       | .ok _ => (.ok (.bare .noneV), env))
  | .exprStmt value =>
    (match evalExpr P env value with
     | .error e => (.error e, env)
     | .ok v => (.ok (.bare v), env))
  | .ifStmt test body orelse =>
    match evalExpr P env test with
    | .error e => (.error e, env)
    | .ok _ =>
      match evalStmts P body env with
      | (.error e, env1) => (.error e, env1)
      | (.ok _, env1) =>
        match evalStmts P orelse env1 with
        | (.error e, env2) => (.error e, env2)
        | (.ok _, env2) => (.ok (.bare .noneV), env2)

/-- Visiting a list of child statements under `generic_visit`: stop at
the first exception, keeping the environment mutations already made. -/
def evalStmts (P : Prims) (l : List Stmt) (env : Env) :
    (Except PyErr Unit) × Env :=
  match l with
  | [] => (.ok (), env)
  | s :: rest =>
    match evalStmt P s env with
    | (.ok _, env1) => evalStmts P rest env1
    | (.error e, env1) => (.error e, env1)

end

/-- `visit_Module`: exactly one top-level statement, else
`ValueError("Only single expressions/assignments allowed")`. -/
def evalModule (P : Prims) (stmts : List Stmt) (env : Env) :
    (Except PyErr Outcome) × Env :=
  match stmts with
  | [s] => evalStmt P s env
  | _ => (.error (.valueError "Only single expressions/assignments allowed"), env)

/-- Python's `str.strip()`: drop whitespace from both ends (defined over
the character list so that it evaluates by kernel reduction). -/
def pyStrip (s : String) : String :=
  ⟨((s.data.dropWhile Char.isWhitespace).reverse.dropWhile
      Char.isWhitespace).reverse⟩

/-- Python's `"=" in s` over the character list. -/
def containsEq (t : String) : Bool :=
  t.data.contains '='

/-- Python's `s.startswith((p1, p2))` for the two two-character prefixes
`==` and `!=`. -/
def startsWithCmp (t : String) : Bool :=
  match t.data with
  | c1 :: c2 :: _ => (c1 == '=' || c1 == '!') && c2 == '='
  | _ => false

/-- The mode test of `eval_line` on the stripped line:
`"=" in s and not s.startswith(("==", "!="))`. -/
def isAssignMode (t : String) : Bool :=
  containsEq t && !startsWithCmp t

/-- The results `ast.parse(s, mode="exec")` and `ast.parse(s, mode="eval")`
of the stripped line `s`.  The Python parser is library code outside the
repository, so each concrete theorem supplies the tree the grammar
assigns to its concrete line; `.error` stands for a `SyntaxError` with
the given message. -/
structure ParsedLine where
  execParse : Except String (List Stmt)
  evalParse : Except String Expr

/-- `eval_line(s, env)`: strip, choose exec or eval mode by
`isAssignMode`, parse, visit.  A `SyntaxError` from parsing is re-raised
as `ValueError(f"Syntax error: {e.msg}")`.  The environment is returned
alongside the result to make its mutations observable. -/
def evalLine (P : Prims) (s : String) (pl : ParsedLine) (env : Env) :
    (Except PyErr Outcome) × Env :=
  if isAssignMode (pyStrip s) then
    match pl.execParse with
    | .error m => (.error (.valueError ("Syntax error: " ++ m)), env)
    | .ok stmts => evalModule P stmts env
  else
    match pl.evalParse with
    | .error m => (.error (.valueError ("Syntax error: " ++ m)), env)
    | .ok e =>
      match evalExpr P env e with
      | .error er => (.error er, env)
      | .ok v => (.ok (.bare v), env)

mutual

/-- Whether the expression tree contains, anywhere, one of the nine node
kinds the specification lists as rejected constructs (comparison,
boolean operator, conditional expression, lambda, attribute access,
indexing, list/tuple/mapping literal).  A rejected node is counted
without descending into it (its handler raises before looking at
children); the supported and `generic_visit` kinds are traversed. -/
def hasRejected : Expr → Bool
  | .constant _ => false
  | .name _ => false
  | .binOp _ l r => hasRejected l || hasRejected r
  | .unaryOp _ x => hasRejected x
  | .call f args kws => hasRejected f || hasRejectedL args || hasRejectedKw kws
  | .compare _ _ => true
  | .boolOp _ _ => true
  | .ifExp _ _ _ => true
  | .lambdaE _ => true
  | .attributeE _ _ => true
  | .subscript _ _ => true
  | .listE _ => true
  | .tupleE _ => true
  | .dictE _ => true
  | .setE elts => hasRejectedL elts
  | .namedExpr _ value => hasRejected value
  | .starred value => hasRejected value

/-- List version of `hasRejected`. -/
def hasRejectedL : List Expr → Bool
  | [] => false
  | a :: rest => hasRejected a || hasRejectedL rest

/-- Keyword-list version of `hasRejected`. -/
def hasRejectedKw : List (String × Expr) → Bool
  | [] => false
  | (_, a) :: rest => hasRejected a || hasRejectedKw rest

end

mutual

/-- Statement-level version of `hasRejected`. -/
def hasRejectedStmt : Stmt → Bool
  | .assign targets value => hasRejectedL targets || hasRejected value
  | .augAssign _ _ value => hasRejected value
  | .exprStmt value => hasRejected value
  | .ifStmt test body orelse =>
    hasRejected test || hasRejectedStmts body || hasRejectedStmts orelse

/-- Statement-list version of `hasRejected`. -/
def hasRejectedStmts : List Stmt → Bool
  | [] => false
  | s :: rest => hasRejectedStmt s || hasRejectedStmts rest

end

/-- Whether a parsed line (in the mode `eval_line` selects for it)
contains a rejected construct, counting a failed parse (`SyntaxError`)
as well. -/
def parsedHasRejected (assignMode : Bool) (pl : ParsedLine) : Bool :=
  if assignMode then
    match pl.execParse with
    | .ok stmts => hasRejectedStmts stmts
    | .error _ => true
  else
    match pl.evalParse with
    | .ok e => hasRejected e
    | .error _ => true

/-- Whether an expression node is one of the five expression-level
supported kinds of the `SyntaxNode` data model (`NumberLiteral`,
`VariableRef`, `UnaryOp`, `BinaryOp`, `FunctionCall`); the sixth kind,
`Assignment`, is a statement. -/
def supportedShape : Expr → Bool
  | .constant _ => true
  | .name _ => true
  | .binOp _ _ _ => true
  | .unaryOp _ _ => true
  | .call _ _ _ => true
  | _ => false

/-- Whether an `Except` result is a success. -/
def okB {α : Type} (r : Except PyErr α) : Bool :=
  match r with
  | .ok _ => true
  | .error _ => false

/-- The initial environment of the REPL: `{"ans": 0.0}`. -/
def envAns : Env := [("ans", .floatV 0)]

/-- The environment after executing `sqrt = 5` in the initial
environment. -/
def envShadow : Env := [("ans", .floatV 0), ("sqrt", .intV 5)]

/-- Parse of the line `{1, 2}` (eval mode): a `Set` literal with two
integer elements; exec mode wraps the same expression in a statement. -/
def setTree : Expr := .setE [.constant (.intC 1), .constant (.intC 2)]

/-- ParsedLine for `{1, 2}`. -/
def plSet : ParsedLine := ⟨.ok [.exprStmt setTree], .ok setTree⟩

/-- Parse of the line `if 1: x = 5; y = (1 < 2)` (exec mode): one `If`
statement whose body holds two assignments, the second with a comparison
on its right-hand side.  In eval mode the line is a `SyntaxError`. -/
def ifTree : Stmt :=
  .ifStmt (.constant (.intC 1))
    [.assign [.name "x"] (.constant (.intC 5)),
     .assign [.name "y"] (.compare (.constant (.intC 1)) [(.lt, .constant (.intC 2))])]
    []

/-- ParsedLine for `if 1: x = 5; y = (1 < 2)`. -/
def plIf : ParsedLine := ⟨.ok [ifTree], .error "invalid syntax"⟩

/-- Parse of the expression `z + (1 < 2)`. -/
def zCmpTree : Expr :=
  .binOp .add (.name "z")
    (.compare (.constant (.intC 1)) [(.lt, .constant (.intC 2))])

/-- ParsedLine for `z + (1 < 2)`. -/
def plZCmp : ParsedLine := ⟨.ok [.exprStmt zCmpTree], .ok zCmpTree⟩

/-- Parse of the expression `1 < 2`. -/
def cmpTree : Expr := .compare (.constant (.intC 1)) [(.lt, .constant (.intC 2))]

/-- ParsedLine for `1 < 2`. -/
def plCmp : ParsedLine := ⟨.ok [.exprStmt cmpTree], .ok cmpTree⟩

/-- Parse of the expression `sqrt(1, 2)`. -/
def sqrtTwoArgTree : Expr :=
  .call (.name "sqrt") [.constant (.intC 1), .constant (.intC 2)] []

/-- ParsedLine for `sqrt(1, 2)`. -/
def plSqrtTwoArg : ParsedLine := ⟨.ok [.exprStmt sqrtTwoArgTree], .ok sqrtTwoArgTree⟩

/-- Parse of the statement `sqrt = 5` (exec mode); in eval mode the line
is a `SyntaxError`. -/
def sqrtAssignStmt : Stmt := .assign [.name "sqrt"] (.constant (.intC 5))

/-- ParsedLine for `sqrt = 5`. -/
def plSqrtAssign : ParsedLine := ⟨.ok [sqrtAssignStmt], .error "invalid syntax"⟩

/-- Parse of the expression `sqrt(4)`. -/
def sqrtCallTree : Expr := .call (.name "sqrt") [.constant (.intC 4)] []

/-- ParsedLine for `sqrt(4)`. -/
def plSqrtCall : ParsedLine := ⟨.ok [.exprStmt sqrtCallTree], .ok sqrtCallTree⟩

/-- Parse of the expression `log(1000, base=10)` (a `Call` with one
positional and one keyword argument; the line itself contains `=`, so
`eval_line` parses it in exec mode as an expression statement). -/
def logKwTree : Expr :=
  .call (.name "log") [.constant (.intC 1000)] [("base", .constant (.intC 10))]

/-- ParsedLine for `log(1000, base=10)`. -/
def plLogKw : ParsedLine := ⟨.ok [.exprStmt logKwTree], .ok logKwTree⟩

/-- Parse of the expression `log(1000)`. -/
def logTree : Expr := .call (.name "log") [.constant (.intC 1000)] []

/-- ParsedLine for `log(1000)`. -/
def plLog : ParsedLine := ⟨.ok [.exprStmt logTree], .ok logTree⟩

/-- Parse of the statement `x = 5`. -/
def xAssignStmt : Stmt := .assign [.name "x"] (.constant (.intC 5))

/-- ParsedLine for `x = 5`. -/
def plXAssign : ParsedLine := ⟨.ok [xAssignStmt], .error "invalid syntax"⟩

/-- ParsedLine for `True`. -/
def plTrue : ParsedLine :=
  ⟨.ok [.exprStmt (.constant (.boolC true))], .ok (.constant (.boolC true))⟩

/-- ParsedLine for `False`. -/
def plFalse : ParsedLine :=
  ⟨.ok [.exprStmt (.constant (.boolC false))], .ok (.constant (.boolC false))⟩

/-- Parse of the expression `True + 1`. -/
def truePlusOneTree : Expr :=
  .binOp .add (.constant (.boolC true)) (.constant (.intC 1))

/-- ParsedLine for `True + 1`. -/
def plTruePlusOne : ParsedLine := ⟨.ok [.exprStmt truePlusOneTree], .ok truePlusOneTree⟩

/-- A `Prims` instantiation whose `log` agrees with the real natural
logarithm at `10` and `1000` up to the common factor `log 10` (realised
with `log 10 = 1`, `log 1000 = 3`); used to witness the `log`-function
theorems at a concrete instance satisfying their hypotheses. -/
def logPrims : Prims :=
  ⟨fun _ => 0, fun _ => 0, fun _ => 0, fun _ => 0, fun _ => 0,
   fun q => if q = 1000 then 3 else if q = 10 then 1 else 0,
   fun _ _ => 0, 0, 0⟩

/-- Whether a result is a successfully resolved registered-function
value (the only shape `visit_Call` accepts for the call target, since it
compares against `FUNCS.values()`). -/
def isFuncValue (r : Except PyErr Value) : Bool :=
  match r with
  | .ok (.funcV _) => true
  | _ => false

/-- Whether a result is an error of the `ValueError` class — the class
that realises both the `UnsupportedConstruct` and the `SyntaxError`
kinds of the specification's error taxonomy (`eval_line` re-raises
`SyntaxError` as `ValueError`). -/
def errIsValueError (r : Except PyErr Outcome) : Bool :=
  match r with
  | .error (.valueError _) => true
  | _ => false

/-! ## General lemmas about the evaluator -/

theorem sizeOf_pos_expr (e : Expr) : 0 < sizeOf e := by
  cases e <;> simp_arith

theorem sizeOf_pos_stmt (s : Stmt) : 0 < sizeOf s := by
  cases s <;> simp_arith

/-- If a positional-argument list evaluates successfully, every member
expression evaluates successfully. -/
theorem evalArgs_ok_mem (P : Prims) (env : Env) :
    ∀ (l : List Expr) (vs : List Value), evalArgs P env l = .ok vs →
      ∀ a ∈ l, ∃ v, evalExpr P env a = .ok v := by
  intro l
  induction l with
  | nil => intro vs _ a ha; exact absurd ha (List.not_mem_nil a)
  | cons x t ih =>
    intro vs h a ha
    cases hx : evalExpr P env x with
    | error er => simp [evalArgs, hx] at h
    | ok v =>
      cases ht : evalArgs P env t with
      | error er => simp [evalArgs, hx, ht] at h
      | ok vs2 =>
        rcases List.mem_cons.mp ha with rfl | hm
        · exact ⟨v, hx⟩
        · exact ih vs2 ht a hm

/-- Keyword-argument analogue of `evalArgs_ok_mem`. -/
theorem evalKwargs_ok_mem (P : Prims) (env : Env) :
    ∀ (l : List (String × Expr)) (vs : List (String × Value)),
      evalKwargs P env l = .ok vs →
      ∀ p ∈ l, ∃ v, evalExpr P env p.2 = .ok v := by
  intro l
  induction l with
  | nil => intro vs _ p hp; exact absurd hp (List.not_mem_nil p)
  | cons x t ih =>
    intro vs h p hp
    obtain ⟨k, a⟩ := x
    cases hx : evalExpr P env a with
    | error er => simp [evalKwargs, hx] at h
    | ok v =>
      cases ht : evalKwargs P env t with
      | error er => simp [evalKwargs, hx, ht] at h
      | ok vs2 =>
        rcases List.mem_cons.mp hp with rfl | hm
        · exact ⟨v, hx⟩
        · exact ih vs2 ht p hm

theorem hasRejectedL_eq_false (l : List Expr)
    (h : ∀ a ∈ l, hasRejected a = false) : hasRejectedL l = false := by
  induction l with
  | nil => simp [hasRejectedL]
  | cons x t ih =>
    simp [hasRejectedL, h x (List.mem_cons_self x t),
      ih (fun a ha => h a (List.mem_cons_of_mem x ha))]

theorem hasRejectedKw_eq_false (l : List (String × Expr))
    (h : ∀ p ∈ l, hasRejected p.2 = false) : hasRejectedKw l = false := by
  induction l with
  | nil => simp [hasRejectedKw]
  | cons x t ih =>
    obtain ⟨k, a⟩ := x
    simp [hasRejectedKw, h (k, a) (List.mem_cons_self _ t),
      ih (fun p hp => h p (List.mem_cons_of_mem _ hp))]

/-- Strong induction on tree size: an expression that evaluates to a
value contains no rejected construct (every child of a successfully
evaluated node is itself visited successfully, and each rejected node
raises as soon as it is visited). -/
theorem evalExpr_ok_aux (P : Prims) :
    ∀ (n : ℕ) (env : Env) (e : Expr) (v : Value), sizeOf e ≤ n →
      evalExpr P env e = .ok v → hasRejected e = false := by
  intro n
  induction n with
  | zero =>
    intro env e v hs _
    exact absurd (sizeOf_pos_expr e) (by omega)
  | succ n ih =>
    intro env e v hs hv
    cases e with
    | constant c => simp [hasRejected]
    | name id => simp [hasRejected]
    | binOp op l r =>
      cases hl : evalExpr P env l with
      | error er => simp [evalExpr, hl] at hv
      | ok lv =>
        cases hr : evalExpr P env r with
        | error er => simp [evalExpr, hl, hr] at hv
        | ok rv =>
          have h1 : hasRejected l = false :=
            ih env l lv (by simp at hs; omega) hl
          have h2 : hasRejected r = false :=
            ih env r rv (by simp at hs; omega) hr
          simp [hasRejected, h1, h2]
    | unaryOp op x =>
      cases hx : evalExpr P env x with
      | error er => simp [evalExpr, hx] at hv
      | ok xv =>
        have h1 : hasRejected x = false :=
          ih env x xv (by simp at hs; omega) hx
        simp [hasRejected, h1]
    | call f args kws =>
      cases hf : evalExpr P env f with
      | error er => simp [evalExpr, hf] at hv
      | ok fv =>
        cases fv with
        | funcV fn =>
          cases hA : evalArgs P env args with
          | error er => simp [evalExpr, hf, hA] at hv
          | ok avs =>
            cases hK : evalKwargs P env kws with
            | error er => simp [evalExpr, hf, hA, hK] at hv
            | ok kvs =>
              have h1 : hasRejected f = false :=
                ih env f (.funcV fn) (by simp at hs; omega) hf
              have h2 : hasRejectedL args = false := by
                apply hasRejectedL_eq_false
                intro a ha
                obtain ⟨va, hva⟩ := evalArgs_ok_mem P env args avs hA a ha
                have hlt : sizeOf a < sizeOf args := List.sizeOf_lt_of_mem ha
                exact ih env a va (by simp at hs; omega) hva
              have h3 : hasRejectedKw kws = false := by
                apply hasRejectedKw_eq_false
                intro p hp
                obtain ⟨vp, hvp⟩ := evalKwargs_ok_mem P env kws kvs hK p hp
                have hlt : sizeOf p < sizeOf kws := List.sizeOf_lt_of_mem hp
                obtain ⟨k, a⟩ := p
                simp at hlt
                exact ih env a vp (by simp at hs; omega) hvp
              simp [hasRejected, h1, h2, h3]
        | intV m => simp [evalExpr, hf] at hv
        | boolV b => simp [evalExpr, hf] at hv
        | floatV q => simp [evalExpr, hf] at hv
        | noneV => simp [evalExpr, hf] at hv
    | compare l rest => simp [evalExpr] at hv
    | boolOp op vals => simp [evalExpr] at hv
    | ifExp t b o => simp [evalExpr] at hv
    | lambdaE b => simp [evalExpr] at hv
    | attributeE x a => simp [evalExpr] at hv
    | subscript x i => simp [evalExpr] at hv
    | listE elts => simp [evalExpr] at hv
    | tupleE elts => simp [evalExpr] at hv
    | dictE entries => simp [evalExpr] at hv
    | setE elts =>
      cases hA : evalArgs P env elts with
      | error er => simp [evalExpr, hA] at hv
      | ok avs =>
        have h2 : hasRejectedL elts = false := by
          apply hasRejectedL_eq_false
          intro a ha
          obtain ⟨va, hva⟩ := evalArgs_ok_mem P env elts avs hA a ha
          have hlt : sizeOf a < sizeOf elts := List.sizeOf_lt_of_mem ha
          exact ih env a va (by simp at hs; omega) hva
        simp [hasRejected, h2]
    | namedExpr target value =>
      cases hn : lookupName P env target with
      | error er => simp [evalExpr, hn] at hv
      | ok nv =>
        cases hx : evalExpr P env value with
        | error er => simp [evalExpr, hn, hx] at hv
        | ok xv =>
          have h1 : hasRejected value = false :=
            ih env value xv (by simp at hs; omega) hx
          simp [hasRejected, h1]
    | starred value =>
      cases hx : evalExpr P env value with
      | error er => simp [evalExpr, hx] at hv
      | ok xv =>
        have h1 : hasRejected value = false :=
          ih env value xv (by simp at hs; omega) hx
        simp [hasRejected, h1]

/-- An expression that evaluates to a value contains no rejected
construct. -/
theorem evalExpr_ok_noRejected (P : Prims) (env : Env) (e : Expr) (v : Value)
    (h : evalExpr P env e = .ok v) : hasRejected e = false :=
  evalExpr_ok_aux P (sizeOf e) env e v le_rfl h

/-- Statement-level analogue of `evalExpr_ok_aux`, by simultaneous
strong induction on statements and statement lists. -/
theorem evalStmt_ok_aux (P : Prims) :
    ∀ (n : ℕ),
      (∀ (s : Stmt) (env : Env) (out : Outcome) (env2 : Env), sizeOf s ≤ n →
        evalStmt P s env = (.ok out, env2) → hasRejectedStmt s = false) ∧
      (∀ (l : List Stmt) (env env2 : Env), sizeOf l ≤ n →
        evalStmts P l env = (.ok (), env2) → hasRejectedStmts l = false) := by
  intro n
  induction n with
  | zero =>
    constructor
    · intro s env out env2 hs _
      exact absurd (sizeOf_pos_stmt s) (by omega)
    · intro l env env2 hs hl
      cases l with
      | nil => simp [hasRejectedStmts]
      | cons s t =>
        have := sizeOf_pos_stmt s
        simp at hs
  | succ n ih =>
    obtain ⟨ihS, ihL⟩ := ih
    constructor
    · intro s env out env2 hs hv
      cases s with
      | assign targets value =>
        match targets with
        | [] => simp [evalStmt] at hv
        | [Expr.name id] =>
          cases hval : evalExpr P env value with
          | error er => simp [evalStmt, hval] at hv
          | ok w =>
            have h1 : hasRejected value = false :=
              evalExpr_ok_noRejected P env value w hval
            simp [hasRejectedStmt, hasRejectedL, hasRejected, h1]
        | [Expr.constant c] => simp [evalStmt] at hv
        | [Expr.binOp op l r] => simp [evalStmt] at hv
        | [Expr.unaryOp op x] => simp [evalStmt] at hv
        | [Expr.call f a k] => simp [evalStmt] at hv
        | [Expr.compare l rest] => simp [evalStmt] at hv
        | [Expr.boolOp op vals] => simp [evalStmt] at hv
        | [Expr.ifExp t b o] => simp [evalStmt] at hv
        | [Expr.lambdaE b] => simp [evalStmt] at hv
        | [Expr.attributeE x a] => simp [evalStmt] at hv
        | [Expr.subscript x i] => simp [evalStmt] at hv
        | [Expr.listE elts] => simp [evalStmt] at hv
        | [Expr.tupleE elts] => simp [evalStmt] at hv
        | [Expr.dictE entries] => simp [evalStmt] at hv
        | [Expr.setE elts] => simp [evalStmt] at hv
        | [Expr.namedExpr tg w] => simp [evalStmt] at hv
        | [Expr.starred w] => simp [evalStmt] at hv
        | t1 :: t2 :: rest => simp [evalStmt] at hv
      | augAssign target op value =>
        cases hn : lookupName P env target with
        | error er => simp [evalStmt, hn] at hv
        | ok nv =>
          cases hval : evalExpr P env value with
          | error er => simp [evalStmt, hn, hval] at hv
          | ok w =>
            have h1 : hasRejected value = false :=
              evalExpr_ok_noRejected P env value w hval
            simp [hasRejectedStmt, h1]
      | exprStmt value =>
        cases hval : evalExpr P env value with
        | error er => simp [evalStmt, hval] at hv
        | ok w =>
          have h1 : hasRejected value = false :=
            evalExpr_ok_noRejected P env value w hval
          simp [hasRejectedStmt, h1]
      | ifStmt test body orelse =>
        cases htest : evalExpr P env test with
        | error er => simp [evalStmt, htest] at hv
        | ok tv =>
          have h1 : hasRejected test = false :=
            evalExpr_ok_noRejected P env test tv htest
          cases hbody : evalStmts P body env with
          | mk res1 env1 =>
            cases res1 with
            | error er => simp [evalStmt, htest, hbody] at hv
            | ok u1 =>
              cases horelse : evalStmts P orelse env1 with
              | mk res2 env3 =>
                cases res2 with
                | error er => simp [evalStmt, htest, hbody, horelse] at hv
                | ok u2 =>
                  have h2 : hasRejectedStmts body = false :=
                    ihL body env env1 (by simp at hs; omega) hbody
                  have h3 : hasRejectedStmts orelse = false :=
                    ihL orelse env1 env3 (by simp at hs; omega) horelse
                  simp [hasRejectedStmt, h1, h2, h3]
    · intro l env env2 hs hl
      cases l with
      | nil => simp [hasRejectedStmts]
      | cons s t =>
        cases hstep : evalStmt P s env with
        | mk res1 env1 =>
          cases res1 with
          | error er => simp [evalStmts, hstep] at hl
          | ok out =>
            have h1 : hasRejectedStmt s = false :=
              ihS s env out env1 (by simp at hs; omega) hstep
            have hrest : evalStmts P t env1 = (.ok (), env2) := by
              simpa [evalStmts, hstep] using hl
            have h2 : hasRejectedStmts t = false :=
              ihL t env1 env2 (by simp at hs; omega) hrest
            simp [hasRejectedStmts, h1, h2]

/-- A statement that evaluates successfully contains no rejected
construct. -/
theorem evalStmt_ok_noRejected (P : Prims) (s : Stmt) (env : Env)
    (out : Outcome) (env2 : Env) (h : evalStmt P s env = (.ok out, env2)) :
    hasRejectedStmt s = false :=
  (evalStmt_ok_aux P (sizeOf s)).1 s env out env2 le_rfl h

/-- A module that evaluates successfully contains no rejected
construct. -/
theorem evalModule_ok_noRejected (P : Prims) (stmts : List Stmt) (env : Env)
    (out : Outcome) (env2 : Env)
    (h : evalModule P stmts env = (.ok out, env2)) :
    hasRejectedStmts stmts = false := by
  cases stmts with
  | nil => simp [evalModule] at h
  | cons s t =>
    cases t with
    | nil =>
      have h1 : hasRejectedStmt s = false :=
        evalStmt_ok_noRejected P s env out env2 (by simpa [evalModule] using h)
      simp [hasRejectedStmts, h1]
    | cons s2 t2 => simp [evalModule] at h

/-! ## Claim theorems -/

/-- C1: contrary to the claim, a node shape outside the six supported
kinds and outside the enumerated rejected list is NOT detected:
evaluating the line `{1, 2}` (a set literal) succeeds with the silently
passed-through value `None` produced by `generic_visit`, with no error
reported; the `Set` shape is neither a supported shape nor caught by the
rejected-construct blacklist. -/
theorem set_literal_passes_through :
    evalLine zeroPrims "\x7b1, 2\x7d" plSet envAns = (.ok (.bare .noneV), envAns) ∧
    supportedShape setTree = false ∧ hasRejected setTree = false := by
  decide

/-- C2: contrary to the claim, an error can leave the environment
mutated: the line `if 1: x = 5; y = (1 < 2)` (a one-line `If` statement
reached through `generic_visit`) executes its first nested assignment,
then fails on the comparison — `eval_line` raises the error with the new
binding `x = 5` already stored, so the post-error environment differs
from the pre-call one. -/
theorem if_line_mutates_env_on_error :
    evalLine zeroPrims "if 1: x = 5; y = (1 < 2)" plIf envAns =
      (.error (.valueError "Comparisons are not allowed"),
        [("ans", .floatV 0), ("x", .intV 5)]) ∧
    ([("ans", Value.floatV 0), ("x", Value.intV 5)] : Env) ≠ envAns := by
  decide

/-- C3 (amended): a parsed line containing a rejected construct
(comparison, boolean operator, conditional, lambda, attribute, index,
list/tuple/mapping literal) — or failing to parse — never produces a
success outcome: `eval_line` always raises some error on it. -/
theorem closed_grammar_rejected_never_numeric (P : Prims) (s : String)
    (pl : ParsedLine) (env : Env)
    (h : parsedHasRejected (isAssignMode (pyStrip s)) pl = true) :
    okB (evalLine P s pl env).1 = false := by
  cases hm : isAssignMode (pyStrip s) with
  | false =>
    cases hp : pl.evalParse with
    | error m => simp [evalLine, hm, hp, okB]
    | ok e =>
      cases hv : evalExpr P env e with
      | error er => simp [evalLine, hm, hp, hv, okB]
      | ok v =>
        have h1 : hasRejected e = false := evalExpr_ok_noRejected P env e v hv
        rw [hm, parsedHasRejected] at h
        simp [hp, h1] at h
  | true =>
    cases hp : pl.execParse with
    | error m => simp [evalLine, hm, hp, okB]
    | ok stmts =>
      cases hres : evalModule P stmts env with
      | mk res1 env1 =>
        cases res1 with
        | error er => simp [evalLine, hm, hp, hres, okB]
        | ok out =>
          have h1 : hasRejectedStmts stmts = false :=
            evalModule_ok_noRejected P stmts env out env1 hres
          rw [hm, parsedHasRejected] at h
          simp [hp, h1] at h

/-- C3 witness: the line `1 < 2` contains a comparison and its
evaluation is not a success. -/
theorem closed_grammar_witness :
    parsedHasRejected (isAssignMode (pyStrip "1 < 2")) plCmp = true ∧
    okB (evalLine zeroPrims "1 < 2" plCmp envAns).1 = false :=
  ⟨by decide,
   closed_grammar_rejected_never_numeric zeroPrims "1 < 2" plCmp envAns (by decide)⟩

/-- C3 counterexample: the line `z + (1 < 2)` contains a comparison, yet
the resulting error is `NameError` (`UnknownName`), not an error of the
`ValueError` class that realises the `UnsupportedConstruct` and
`SyntaxError` kinds — the left operand is evaluated first and fails
first; so "the result is an error of kind UnsupportedConstruct or
SyntaxError" is false as stated. -/
theorem closed_grammar_counterexample :
    evalLine zeroPrims "z + (1 < 2)" plZCmp envAns =
      (.error (.nameError "Unknown name: z"), envAns) ∧
    errIsValueError (evalLine zeroPrims "z + (1 < 2)" plZCmp envAns).1 = false := by
  constructor
  · decide
  · decide

/-- C4: contrary to the claim, an arity mismatch is not surfaced as a
matchable evaluator error: `sqrt(1, 2)` makes the invocation raise
`TypeError`, a class the REPL's handlers do not catch, so it escapes as
an uncaught fault. -/
theorem arity_mismatch_uncaught_typeerror :
    evalLine zeroPrims "sqrt(1, 2)" plSqrtTwoArg envAns =
      (.error (.typeError "sqrt() takes exactly one argument"), envAns) ∧
    replCatches (.typeError "sqrt() takes exactly one argument") = false := by
  decide

/-- C5: for divide, floor-divide and modulo, once both operands have
evaluated and the right operand is numerically zero, `visit_BinOp`
raises `ZeroDivisionError("Division by zero")` before invoking the
arithmetic primitive. -/
theorem divzero_guard (P : Prims) (env : Env) (op : BinK) (l r : Expr)
    (lv rv : Value) (hop : isDivLike op = true)
    (hl : evalExpr P env l = .ok lv) (hr : evalExpr P env r = .ok rv)
    (hz : pyEqZero rv = true) :
    evalExpr P env (.binOp op l r) =
      .error (.zeroDivisionError "Division by zero") := by
  have hall : binAllowed op = true := by
    cases op <;> simp_all [isDivLike, binAllowed]
  simp [evalExpr, hl, hr, hall, hop, hz]

/-- C5 witness: `1 / 0`, `1 // 0` and `1 % 0` all raise
`DivisionByZero`. -/
theorem divzero_witness :
    evalExpr zeroPrims envAns
        (.binOp .div (.constant (.intC 1)) (.constant (.intC 0))) =
      .error (.zeroDivisionError "Division by zero") ∧
    evalExpr zeroPrims envAns
        (.binOp .floorDiv (.constant (.intC 1)) (.constant (.intC 0))) =
      .error (.zeroDivisionError "Division by zero") ∧
    evalExpr zeroPrims envAns
        (.binOp .mod (.constant (.intC 1)) (.constant (.intC 0))) =
      .error (.zeroDivisionError "Division by zero") :=
  ⟨divzero_guard zeroPrims envAns .div _ _ (.intV 1) (.intV 0)
      (by decide) (by decide) (by decide) (by decide),
   divzero_guard zeroPrims envAns .floorDiv _ _ (.intV 1) (.intV 0)
      (by decide) (by decide) (by decide) (by decide),
   divzero_guard zeroPrims envAns .mod _ _ (.intV 1) (.intV 0)
      (by decide) (by decide) (by decide) (by decide)⟩

/-- C6: name resolution tries the environment first, then the constants
table, then the functions table, first match winning, and a name found
nowhere raises `NameError(f"Unknown name: {name}")`. -/
theorem name_resolution_order (P : Prims) (env : Env) (id : String) :
    (∀ v, envGet env id = some v → evalExpr P env (.name id) = .ok v) ∧
    (envGet env id = none → ∀ v, constsGet P id = some v →
      evalExpr P env (.name id) = .ok v) ∧
    (envGet env id = none → constsGet P id = none → ∀ f, funcOfName id = some f →
      evalExpr P env (.name id) = .ok (.funcV f)) ∧
    (envGet env id = none → constsGet P id = none → funcOfName id = none →
      evalExpr P env (.name id) = .error (.nameError ("Unknown name: " ++ id))) := by
  refine ⟨?_, ?_, ?_, ?_⟩
  · intro v hv; simp [evalExpr, lookupName, hv]
  · intro h0 v hv; simp [evalExpr, lookupName, h0, hv]
  · intro h0 h1 f hf; simp [evalExpr, lookupName, h0, h1, hf]
  · intro h0 h1 h2; simp [evalExpr, lookupName, h0, h1, h2]

/-- C6 witness: `pi` bound in the environment shadows the constant
`pi`. -/
theorem name_resolution_witness :
    evalExpr zeroPrims [("pi", .intV 1)] (.name "pi") = .ok (.intV 1) :=
  (name_resolution_order zeroPrims [("pi", .intV 1)] "pi").1 (.intV 1) (by decide)

/-- C7 (amended): a line without `=` (or starting with `==`/`!=`) is
parsed in eval mode and yields a bare value or an error; a line with `=`
is parsed in exec mode, where a single `identifier = expression`
statement yields an assignment outcome on success (and leaves the
environment unchanged on failure) — but exec mode also admits
non-assignment statements, so a line containing `=` need not produce an
assignment outcome or an error. -/
theorem mode_disambiguation (P : Prims) (s : String) (pl : ParsedLine)
    (env : Env) :
    (isAssignMode (pyStrip s) = false → ∀ e v, pl.evalParse = .ok e →
      evalExpr P env e = .ok v → evalLine P s pl env = (.ok (.bare v), env)) ∧
    (isAssignMode (pyStrip s) = true → ∀ n rhs v,
      pl.execParse = .ok [.assign [.name n] rhs] → evalExpr P env rhs = .ok v →
      evalLine P s pl env = (.ok (.assigned n v), envSet env n v)) ∧
    (isAssignMode (pyStrip s) = true → ∀ n rhs er,
      pl.execParse = .ok [.assign [.name n] rhs] → evalExpr P env rhs = .error er →
      evalLine P s pl env = (.error er, env)) := by
  refine ⟨?_, ?_, ?_⟩
  · intro hm e v hp hv
    simp [evalLine, hm, hp, hv]
  · intro hm n rhs v hp hv
    simp [evalLine, hm, hp, evalModule, evalStmt, hv]
  · intro hm n rhs er hp hv
    simp [evalLine, hm, hp, evalModule, evalStmt, hv]

/-- C7 witness: the line `x = 5` is an assignment and yields the
assignment outcome `("x", 5)`, storing the binding. -/
theorem mode_disambiguation_witness :
    evalLine zeroPrims "x = 5" plXAssign envAns =
      (.ok (.assigned "x" (.intV 5)), [("ans", .floatV 0), ("x", .intV 5)]) := by
  have h := (mode_disambiguation zeroPrims "x = 5" plXAssign envAns).2.1
    (by decide) "x" (.constant (.intC 5)) (.intV 5) rfl (by decide)
  have h2 : envSet envAns "x" (.intV 5) = [("ans", .floatV 0), ("x", .intV 5)] := by
    decide
  rw [h2] at h
  exact h

/-- C7 counterexample: the line `log(1000, base=10)` contains `=` and
does not start with `==`/`!=`, yet it is not parsed as an assignment —
exec mode accepts it as an expression statement (its keyword argument
carries the `=`) and evaluation returns a bare value, neither an
assignment outcome nor an error; so "parses the line as a single
assignment (producing an assignment outcome or an error)" is false as
stated. -/
theorem mode_disambiguation_counterexample :
    isAssignMode (pyStrip "log(1000, base=10)") = true ∧
    evalLine zeroPrims "log(1000, base=10)" plLogKw envAns =
      (.ok (.bare (.floatV 0)), envAns) := by
  constructor
  · decide
  · simp +decide [evalLine, evalModule, evalStmt, evalExpr, evalConst, lookupName,
      envGet, constsGet, funcOfName, evalArgs, evalKwargs, applyFunc, applyLogKw,
      bindLog, kwLookup, logWithBase, Value.asNum, plLogKw, logKwTree, envAns,
      zeroPrims]

/-- C8: the `log` registry entry takes an optional `base` keyword
argument defaulting to `10` and is a distinct registry name from the
natural-log entry `ln`; under the real-logarithm facts
`log 1000 = 3 * log 10` and `log 10 ≠ 0` (true of the idealised
primitive, see `log_hyps_hold_for_real_log`), both `log(1000, base=10)`
and `log(1000)` evaluate to the bare value `3.0` exactly (so certainly
within `1e-9`). -/
theorem log_base_default (P : Prims) (h1 : P.log 1000 = 3 * P.log 10)
    (h2 : P.log 10 ≠ 0) :
    evalLine P "log(1000, base=10)" plLogKw envAns =
      (.ok (.bare (.floatV 3)), envAns) ∧
    evalLine P "log(1000)" plLog envAns = (.ok (.bare (.floatV 3)), envAns) ∧
    funcOfName "log" = some .log ∧ funcOfName "ln" = some .ln ∧
    FName.log ≠ FName.ln := by
  have key : P.log 1000 / P.log 10 = 3 := by
    rw [h1, mul_div_assoc, div_self h2, mul_one]
  refine ⟨?_, ?_, by decide, by decide, by decide⟩
  · simp +decide [evalLine, evalModule, evalStmt, evalExpr, evalConst, lookupName,
      envGet, constsGet, funcOfName, evalArgs, evalKwargs, applyFunc, applyLogKw,
      bindLog, kwLookup, logWithBase, Value.asNum, plLogKw, logKwTree, envAns, key]
  · simp +decide [evalLine, evalModule, evalStmt, evalExpr, evalConst, lookupName,
      envGet, constsGet, funcOfName, evalArgs, evalKwargs, applyFunc, applyLogKw,
      bindLog, kwLookup, logWithBase, Value.asNum, plLog, logTree, envAns, key]

/-- C8 witness: a concrete primitive instantiation satisfying the two
logarithm hypotheses. -/
theorem log_base_default_witness :
    evalLine logPrims "log(1000, base=10)" plLogKw envAns =
      (.ok (.bare (.floatV 3)), envAns) ∧
    evalLine logPrims "log(1000)" plLog envAns = (.ok (.bare (.floatV 3)), envAns) ∧
    funcOfName "log" = some .log ∧ funcOfName "ln" = some .ln ∧
    FName.log ≠ FName.ln :=
  log_base_default logPrims (by norm_num [logPrims]) (by norm_num [logPrims])

/-- The two hypotheses of `log_base_default` are facts of the real
natural logarithm, which the abstract primitive `Prims.log` idealises. -/
theorem log_hyps_hold_for_real_log :
    Real.log 1000 = 3 * Real.log 10 ∧ Real.log 10 ≠ 0 := by
  constructor
  · have h : (1000 : ℝ) = 10 ^ (3 : ℕ) := by norm_num
    rw [h, Real.log_pow]
    push_cast
    ring
  · exact (Real.log_pos (by norm_num)).ne'

/-- C9 (amended): the call target of `visit_Call` is evaluated as an
ordinary expression (environment first, then constants, then functions)
and the call proceeds only when the resulting value is one of the
registered function values of `FUNCS` — a successful call implies the
target resolved to a registered function value. -/
theorem call_target_is_registered_value (P : Prims) (env : Env) (f : Expr)
    (args : List Expr) (kws : List (String × Expr)) (v : Value)
    (h : evalExpr P env (.call f args kws) = .ok v) :
    isFuncValue (evalExpr P env f) = true := by
  cases hf : evalExpr P env f with
  | error er => simp [evalExpr, hf] at h
  | ok fv =>
    cases fv with
    | funcV fn => simp [isFuncValue, hf]
    | intV m => simp [evalExpr, hf] at h
    | boolV b => simp [evalExpr, hf] at h
    | floatV q => simp [evalExpr, hf] at h
    | noneV => simp [evalExpr, hf] at h

/-- C9 witness: in the initial environment `sqrt(4)` succeeds, so its
target resolved to a registered function value. -/
theorem call_target_witness :
    isFuncValue (evalExpr zeroPrims envAns (.name "sqrt")) = true :=
  call_target_is_registered_value zeroPrims envAns (.name "sqrt")
    [.constant (.intC 4)] [] (.floatV 0) (by decide)

/-- C9 counterexample: after the assignment `sqrt = 5`, the call
`sqrt(4)` does NOT "still resolve its target in the functions registry
and succeed": the target resolves in the environment first, yielding
`5`, and the call is rejected with
`ValueError("Only approved functions are allowed")`. -/
theorem shadowed_sqrt_call_rejected :
    evalLine zeroPrims "sqrt = 5" plSqrtAssign envAns =
      (.ok (.assigned "sqrt" (.intV 5)), envShadow) ∧
    evalLine zeroPrims "sqrt(4)" plSqrtCall envShadow =
      (.error (.valueError "Only approved functions are allowed"), envShadow) := by
  decide

/-- C10: the lines `True` and `False` evaluate to the boolean values
`True` and `False` (numerically `1` and `0`) because `visit_Constant`
accepts any `int`/`float` instance and `bool` is a subclass of `int`;
`True + 1` evaluates to the integer `2`. -/
theorem bool_literals_accepted :
    evalLine zeroPrims "True" plTrue envAns = (.ok (.bare (.boolV true)), envAns) ∧
    evalLine zeroPrims "False" plFalse envAns =
      (.ok (.bare (.boolV false)), envAns) ∧
    evalLine zeroPrims "True + 1" plTruePlusOne envAns =
      (.ok (.bare (.intV 2)), envAns) ∧
    Value.asNum (.boolV true) = some 1 ∧ Value.asNum (.boolV false) = some 0 := by
  refine ⟨by decide, by decide, ?_, by decide, by decide⟩
  simp +decide [evalLine, evalModule, evalStmt, evalExpr, evalConst, applyBin,
    mkNum, binAllowed, isDivLike, pyEqZero, Value.asNum, Value.isIntish,
    plTruePlusOne, truePlusOneTree, envAns]

end CliCalc
